import Mathlib

/- Shallow embedding of the JSettlers server-startup functional test harness.

   Sources embedded here:
   * src/extraTest/python/server/test_startup_params.py  (current harness; the
     plain definitions below follow its functions, keeping the source names)
   * test/bin/test_func_srv_startup_params.py            (older standalone
     variant; its functions are embedded under names with an `old_` marker)

   The external operating system is modelled explicitly: the behaviour of a
   spawned process is a `ProcBehavior` value supplied by an oracle, and the
   OS-visible actions taken by the harness (spawns, signals, sleeps) are
   recorded in an event trace. -/

set_option maxHeartbeats 1000000

/-- POSIX signal kinds relevant to the harness's timeout path. -/
inductive Sig where
  | sigterm
  | sigkill
deriving DecidableEq

/-- Delivery target of a signal: the spawned child process itself, or the whole
process group.  Python's `Popen.terminate()` (used at
test_startup_params.py:198) delivers SIGTERM to the child process only; the
harness never calls `os.killpg`, and `Popen` is created without a new session,
so the process group is never signalled as a group. -/
inductive SigTarget where
  | child
  | childGroup
deriving DecidableEq

/-- OS-visible events produced by one `_run_and_get_outputs` call. -/
inductive OsEvent where
  | spawned (argv : List String)
  | spawnFailed (argv : List String)
  | signaled (s : Sig) (t : SigTarget)
  | slept (seconds : Nat)
deriving DecidableEq

/-- Behaviour of one external process when it can be spawned: how long it runs
(`runtime` in seconds, `none` = never exits on its own), the exit code it would
return (negative = killed by a signal, as in the Python docstring), and the
text it writes to stdout / stderr by completion. -/
structure ProcSpec where
  runtime : Option Nat
  exitCode : Int
  out : String
  err : String
deriving DecidableEq

/-- Behaviour of one attempted spawn: either the OS cannot locate/execute the
command (`Popen` raises `OSError`), or the process runs as described. -/
inductive ProcBehavior where
  | execFail
  | runs (p : ProcSpec)
deriving DecidableEq

/-- The `(rc, stdout, stderr)` triple returned by `_run_and_get_outputs`.
`exitCode = none` models Python `None` (timeout reached). -/
structure RunReturn where
  exitCode : Option Int
  stdout : String
  stderr : String
deriving DecidableEq

/-- Outcome of a `_run_and_get_outputs` call: the call can raise `OSError`
(`raised`), block forever in `proc.communicate()` (`hangs`, possible only with
no timeout and a process that never exits), or return a triple. -/
inductive RunOutcome where
  | raised
  | hangs
  | returned (r : RunReturn)
deriving DecidableEq

/-- Argument-list preparation at the top of `_run_and_get_outputs`
(test_startup_params.py:184-188): `args.insert(0, cmd)` when `args` is a
non-empty list, else `[cmd]`. -/
def prepArgs (cmd : String) (args : List String) : List String :=
  if args.isEmpty then [cmd] else cmd :: args

/-- Embedding of `_run_and_get_outputs(cmd, args, timeout)`
(test_startup_params.py:143-214; identical code in
test_func_srv_startup_params.py:102-173).  `timeout = 0` models Python's
falsy `timeout=0` ("no limit").

With a timeout, the subprocess is driven from a worker `Thread`:
  * If `Popen` raises `OSError` it does so inside the worker thread; a Python
    thread exception is swallowed by the threading machinery, so `join`
    returns, `is_alive()` is false, and the caller reads the still-unset
    `exit_code = None`: the call RETURNS `(None, "", "")` instead of raising.
  * If the process finishes strictly before the timeout, the real exit code
    and captured output are returned.
  * Otherwise `proc.terminate()` sends SIGTERM to the child process (only),
    `rc` is pinned to `None` before the fixed `time.sleep(1)` grace delay,
    and `(None, ...)` is returned regardless of what the process then does.
    (At `runtime = timeout` exactly, the race is resolved here as "timed
    out", matching `thread.join(timeout)` returning with the thread alive.)

Without a timeout, the same code runs in the calling thread: `OSError`
propagates (`raised`), and a process that never exits blocks `communicate()`
forever (`hangs`). -/
def run_and_get_outputs (b : ProcBehavior) (cmd : String) (args : List String)
    (timeout : Nat) : RunOutcome × List OsEvent :=
  let argv := prepArgs cmd args
  if timeout ≠ 0 then
    match b with
    | .execFail => (.returned ⟨none, "", ""⟩, [.spawnFailed argv])
    | .runs p =>
      match p.runtime with
      | some rt =>
        if rt < timeout then
          (.returned ⟨some p.exitCode, p.out, p.err⟩, [.spawned argv])
        else
          (.returned ⟨none, "", ""⟩,
            [.spawned argv, .signaled .sigterm .child, .slept 1])
      | none =>
        (.returned ⟨none, "", ""⟩,
          [.spawned argv, .signaled .sigterm .child, .slept 1])
  else
    match b with
    | .execFail => (.raised, [.spawnFailed argv])
    | .runs p =>
      match p.runtime with
      | some _ => (.returned ⟨some p.exitCode, p.out, p.err⟩, [.spawned argv])
      | none => (.hangs, [.spawned argv])

/-- Projection used where the caller passes a non-zero timeout (so the call
always returns a triple); the fallback branch is unreachable there. -/
def runReturnOf : RunOutcome → RunReturn
  | .returned r => r
  | _ => ⟨none, "", ""⟩

/-- `chLeads n h` : the char list `n` is a leading segment of `h`. -/
def chLeads : List Char → List Char → Bool
  | [], _ => true
  | _ :: _, [] => false
  | a :: as, b :: bs => a == b && chLeads as bs

/-- `chHasSub n h` : the char list `n` occurs contiguously inside `h`;
this is Python's `n in h` substring test on the character sequences. -/
def chHasSub : List Char → List Char → Bool
  | n, [] => n.isEmpty
  | n, h :: t => chLeads n (h :: t) || chHasSub n t

/-- Python's `needle in hay` substring containment on strings. -/
def strHasSub (hay needle : String) : Bool :=
  chHasSub needle.data hay.data

/-- Specification-side notion of substring occurrence: `needle` appears as a
contiguous run inside `hay`'s character sequence. -/
def strOccurs (needle hay : String) : Prop :=
  ∃ u v : List Char, hay.data = u ++ needle.data ++ v

/-- Accumulator-based splitter on a single separator character; mirrors
Python `str.split(sep)` with an explicit separator (keeping empty pieces). -/
def splitChAux (sep : Char) (acc : List Char) : List Char → List String
  | [] => [String.mk acc.reverse]
  | c :: rest =>
    if c = sep then String.mk acc.reverse :: splitChAux sep [] rest
    else splitChAux sep (acc ++ [c]) rest

/-- Python `s.split(sep)` for a one-character separator: `"a\n\nb"` gives
`["a", "", "b"]`, the empty string gives `[""]`. -/
def pySplitCh (sep : Char) (s : String) : List String :=
  splitChAux sep [] s.data

/-- Python `s.split()` (no separator): split on whitespace runs, dropping
empty tokens.  The harness's command lines contain only spaces, so splitting
on the space character is exact here. -/
def pySplit (s : String) : List String :=
  (pySplitCh ' ' s).filter (fun t => t != "")

/-- Python `str(...)` of an optional int exit code (`None` / an integer). -/
def pyStrOptInt : Option Int → String
  | none => "None"
  | some n => toString n

/-- Python `repr` quoting used by `str` of a list of strings. -/
def pyQuote (s : String) : String := "\x27" ++ s ++ "\x27"

/-- Python `str(...)` of a list of strings, e.g. `['a', 'b']`. -/
def pyStrList (ls : List String) : String :=
  "[" ++ String.intercalate ", " (ls.map pyQuote) ++ "]"

/-- The duck-typed `expected_output_incl` argument of `arg_test` in
test_startup_params.py: either a single case-sensitive substring, or a list
of strings that must each appear as complete lines of the output. -/
inductive ExpectedOutput where
  | sub (s : String)
  | lineSet (ls : List String)
deriving DecidableEq

/-- Arguments of one `arg_test` call (test_startup_params.py:245). -/
structure ArgTestArgs where
  should_startup : Bool
  cmdline_params : String
  propsfile_contents : Option (List String)
  expected_output_incl : Option ExpectedOutput
deriving DecidableEq

/-- Observable state threaded through the harness run:
  * `propsFile` — contents of `test/tmp/jsserver.properties` as a list of
    lines, `none` when the file is absent;
  * `failedCount` — the global `tests_failed_count` counter;
  * `output` — lines printed to the harness's stdout, in order;
  * `events` — OS events of the `_run_and_get_outputs` calls made so far;
  * `results` — history of the booleans returned by completed `arg_test`
    calls, in call order (a history variable used to state counting facts). -/
structure HarnessState where
  propsFile : Option (List String)
  failedCount : Nat
  output : List String
  events : List OsEvent
  results : List Bool
deriving DecidableEq

/-- A process-behaviour oracle for the server under test: given the java
argument list and the current `jsserver.properties` contents, what does the
spawned process do. -/
abbrev Srv := List String → Option (List String) → ProcBehavior

/-- `MAX_TIMEOUT_SEC` constant (test_startup_params.py:34). -/
def MAX_TIMEOUT_SEC : Nat := 20

/-- The server jar path used on the command line; set by `env_ok()` from
`REL_PATHS_JS_SERVER_JAR`, modelled as its first candidate. -/
def relPathJsServerJar : String := "../../../target/JSettlersServer.jar"

/-- The `args` list `arg_test` builds before spawning java
(test_startup_params.py:284-286). -/
def builtArgs (a : ArgTestArgs) : List String :=
  ["-jar", relPathJsServerJar] ++
    (if a.cmdline_params.length ≠ 0 then pySplit a.cmdline_params else [])

/-- The destructive set-removal loop of test_startup_params.py:318-320: for
each output line, remove it from the remaining expected-line set. -/
def removeMatchedLines (lines : List String) (s : List String) : List String :=
  lines.foldl (fun acc line => acc.filter (fun e => e != line)) s

/-- The `output_ok` computation of test_startup_params.py:315-321: substring
search in `stdout + " " + stderr` for a string expectation, or emptiness of
the expected-line set (seeded with `set(expected_output_incl)`, i.e. the
deduplicated list) after removing every line of `stdout + "\n" + stderr`. -/
def outputOk : Option ExpectedOutput → String → String → Bool
  | some (.sub s), stdout, stderr => strHasSub (stdout ++ " " ++ stderr) s
  | some (.lineSet ls), stdout, stderr =>
      (removeMatchedLines (pySplitCh (Char.ofNat 10) (stdout ++ "\n" ++ stderr))
        ls.dedup).isEmpty
  | none, _, _ => true

/-- The verdict block of `arg_test` (test_startup_params.py:304-324): returns
the `ret` boolean and the `prn_startup` description.  `did_startup` is
`exit_code is None`. -/
def argVerdict (a : ArgTestArgs) (r : RunReturn) : Bool × String :=
  let did_startup := r.exitCode.isNone
  let prn0 :=
    match r.exitCode with
    | none => "(started up)"
    | some ec => "(exited: " ++ toString ec ++ ")"
  let ret := true
  let ret := if a.should_startup != did_startup then false else ret
  if a.expected_output_incl.isSome && !did_startup then
    if !outputOk a.expected_output_incl r.stdout r.stderr then
      (false, prn0 ++ " -- missing expected output")
    else (ret, prn0)
  else (ret, prn0)

/-- The `(rc, stdout, stderr)` the `arg_test` run observes: java is spawned
with the built args after the properties file was set to exactly
`a.propsfile_contents`, with `timeout=MAX_TIMEOUT_SEC` (non-zero, so the call
always returns a triple). -/
def argRunReturn (srv : Srv) (a : ArgTestArgs) : RunReturn :=
  runReturnOf
    (run_and_get_outputs (srv (builtArgs a) a.propsfile_contents) "java"
      (builtArgs a) MAX_TIMEOUT_SEC).1

/-- The boolean one `arg_test` call returns (when it does not raise). -/
def stepVerdict (srv : Srv) (a : ArgTestArgs) : Bool :=
  (argVerdict a (argRunReturn srv a)).1

/-- Python `str(expected_output_incl)`. -/
def eoText : ExpectedOutput → String
  | .sub s => s
  | .lineSet ls => pyStrList ls

/-- Lines printed by the failure branch of `arg_test`
(test_startup_params.py:329-339). -/
def failLines (a : ArgTestArgs) (r : RunReturn) (prn : String) : List String :=
  [prn ++ " -> FAIL"]
  ++ (match a.expected_output_incl, r.exitCode with
      | some eo, some _ => ["EXPECTED: " ++ eoText eo]
      | _, _ => [])
  ++ ["STDOUT: " ++ r.stdout, "STDERR: " ++ r.stderr]
  ++ (match a.propsfile_contents with
      | some cs => ["jsserver.properties contents:"] ++ cs
      | none => [])
  ++ [""]

/-- Net state effect of one completed `arg_test` call
(test_startup_params.py:288-339), in source order: the properties file is
written with the given contents / deleted (:288-299), the `Test: java ...`
description is printed (:301), java is run (:302, appending its OS events),
then either the `-> ok` line or the failure block is printed and
`tests_failed_count` is incremented on failure (:326-339). -/
def stepState (srv : Srv) (st : HarnessState) (a : ArgTestArgs) : HarnessState :=
  let args := builtArgs a
  let r := argRunReturn srv a
  let v := stepVerdict srv a
  let prn := (argVerdict a r).2
  { propsFile := a.propsfile_contents
    failedCount := st.failedCount + (if v then 0 else 1)
    output := st.output
      ++ ["Test: java " ++ String.intercalate " " args
          ++ (if a.propsfile_contents.isSome then "; with jsserver.properties"
              else "; no jsserver.properties")]
      ++ (if v then [prn ++ " -> ok"] else failLines a r prn)
    events := st.events
      ++ (run_and_get_outputs (srv args a.propsfile_contents) "java" args
            MAX_TIMEOUT_SEC).2
    results := st.results ++ [v] }

/-- Embedding of `arg_test` (test_startup_params.py:245-340).  Result
`(none, st)` models the `ValueError` raised by the guard at :277-278, which
is the first statement of the body: the state is untouched, no file is
written or deleted, no subprocess is spawned, and the counter is unchanged.
Otherwise the call completes with the returned boolean and the net state
effect described by `stepState`. -/
def arg_test (srv : Srv) (st : HarnessState) (a : ArgTestArgs) :
    Option Bool × HarnessState :=
  if a.should_startup && a.expected_output_incl.isSome then (none, st)
  else (some (stepVerdict srv a), stepState srv st a)

/-- Specification-side matching predicate for claim C3: for a string, it
occurs as a substring of the combined captured stdout and stderr; for a list,
every (distinct) string of the list appears verbatim as a complete line of
the combined output. -/
def specMatches : Option ExpectedOutput → String → String → Prop
  | some (.sub s), stdout, stderr => strOccurs s (stdout ++ " " ++ stderr)
  | some (.lineSet ls), stdout, stderr =>
      ∀ e ∈ ls, e ∈ pySplitCh (Char.ofNat 10) (stdout ++ "\n" ++ stderr)
  | none, _, _ => True

/-- Run a sequence of `arg_test` calls in declaration order, threading the
state; `none` models an uncaught `ValueError` aborting the run. -/
def runSteps (srv : Srv) : HarnessState → List ArgTestArgs → Option HarnessState
  | st, [] => some st
  | st, a :: rest =>
    match arg_test srv st a with
    | (none, _) => none
    | (some _, st') => runSteps srv st' rest

/-- The two `arg_test` calls `gameopt_tests_cmdline_propsfile` makes for a
game option `opt` (test_startup_params.py:396-399). -/
def gameoptSteps (should : Bool) (opt : String) (eo : Option ExpectedOutput) :
    List ArgTestArgs :=
  [⟨should, "-o " ++ opt, none, eo⟩,
   ⟨should, "", some ["jsettlers.gameopt." ++ opt], eo⟩]

/-- The two `arg_test` calls `props_tests_cmdline_propsfile` makes for a
property list (test_startup_params.py:368-371): once as `-D` command-line
properties, once as a properties file. -/
def propsSteps (should : Bool) (common : String) (props : List String)
    (eo : Option ExpectedOutput) : List ArgTestArgs :=
  [⟨should, common ++ " -D" ++ String.intercalate " -D" props, none, eo⟩,
   ⟨should, common, some props, eo⟩]

/-- Sequencing of the two sub-tests of a `..._tests_cmdline_propsfile`
wrapper: the Python body builds the full list `[arg_test(...), arg_test(...)]`
before applying `all`, so the second call is evaluated even when the first
returned False (no boolean short-circuit), the state threads through both,
the result is the conjunction of the two booleans, and a `ValueError`
(`none` verdict) from either call propagates. -/
def twoStepAll (r1 : Option Bool × HarnessState)
    (k : HarnessState → Option Bool × HarnessState) :
    Option (Bool × HarnessState) :=
  match r1 with
  | (none, _) => none
  | (some b1, st1) =>
    match k st1 with
    | (none, _) => none
    | (some b2, st2) => some (b1 && b2, st2)

/-- Embedding of `gameopt_tests_cmdline_propsfile`
(test_startup_params.py:373-399): run the game option once on the command
line (`-o opt`), once via a properties file (`jsettlers.gameopt.opt`). -/
def gameopt_tests_cmdline_propsfile (srv : Srv) (st : HarnessState)
    (should : Bool) (opt : String) (eo : Option ExpectedOutput) :
    Option (Bool × HarnessState) :=
  twoStepAll (arg_test srv st ⟨should, "-o " ++ opt, none, eo⟩)
    (fun st1 => arg_test srv st1
      ⟨should, "", some ["jsettlers.gameopt." ++ opt], eo⟩)

/-- Embedding of `props_tests_cmdline_propsfile`
(test_startup_params.py:342-371): raises `ValueError` on a missing/empty
`props_list` (:365-366), then runs the properties once as `-D` command-line
properties and once as a properties file. -/
def props_tests_cmdline_propsfile (srv : Srv) (st : HarnessState)
    (should : Bool) (common : String) (props : List String)
    (eo : Option ExpectedOutput) : Option (Bool × HarnessState) :=
  if props.isEmpty then none
  else
    twoStepAll (arg_test srv st
        ⟨should, common ++ " -D" ++ String.intercalate " -D" props, none, eo⟩)
      (fun st1 => arg_test srv st1 ⟨should, common, some props, eo⟩)

/-- The test sequence declared by `all_tests` (test_startup_params.py:401-483)
in source order, with each `gameopt_tests_cmdline_propsfile` /
`props_tests_cmdline_propsfile` call expanded into its two `arg_test` calls
(every call site passes a non-empty props list, so the wrappers' empty-list
`ValueError` never fires). -/
def declaredTests : List ArgTestArgs :=
  [⟨true, "", none, none⟩,
   ⟨false, "-o NT=t -o NT=y", none,
     some (.sub "option cannot appear twice on command line: NT")⟩,
   ⟨false, "-o NT=t -o nt=f", none,
     some (.sub "option cannot appear twice on command line: NT")⟩,
   ⟨false, "-Djsettlers.gameopt.NT=t -Djsettlers.gameopt.nt=f", none,
     some (.sub "option cannot appear twice on command line: NT")⟩,
   ⟨false, "-o NT=t -Djsettlers.gameopt.nt=f", none,
     some (.sub "option cannot appear twice on command line: NT")⟩,
   ⟨false, "-o", none, some (.sub "Missing required option name/value after -o")⟩,
   ⟨true, "", some ["jsettlers.allow.debug=y"], none⟩,
   ⟨true, "", some ["jsettlers.gameopt.NT=y", "jsettlers.gameopt.vp=t12"], none⟩,
   ⟨false, "-oXYZ=t -oZZZ=t", none,
     some (.sub "Unknown game option: XYZ\nUnknown game option: ZZZ")⟩,
   ⟨false, "", some ["jsettlers.gameopt.XYZ=t", "jsettlers.gameopt.ZZZ=t"],
     some (.lineSet ["Unknown game option: XYZ", "Unknown game option: ZZZ"])⟩,
   ⟨false, "", some ["jsettlers.gameopt.VP=NaN", "jsettlers.gameopt.BC=zzz"],
     some (.lineSet ["Unknown or malformed game option: VP=NaN",
                     "Unknown or malformed game option: BC=zzz"])⟩,
   ⟨false, "-Djsettlers.gameopt.=n", none,
     some (.sub "Empty game option name in property key: jsettlers.gameopt.")⟩,
   ⟨false, "", some ["jsettlers.gameopt.=n"],
     some (.sub "Empty game option name in property key: jsettlers.gameopt.")⟩]
  ++ gameoptSteps false "un_known=y" (some (.sub "Unknown game option: UN_KNOWN"))
  ++ [⟨false, "-o RD=g", none, some (.sub "Unknown or malformed game option: RD")⟩,
      ⟨false, "-o RD=yy", none, some (.sub "Unknown or malformed game option: RD")⟩]
  ++ gameoptSteps false "n7=z" (some (.sub "Unknown or malformed game option: N7"))
  ++ gameoptSteps false "vp=z15" (some (.sub "Unknown or malformed game option: VP"))
  ++ gameoptSteps false "OPTNAME_TOO_LONG=t"
       (some (.sub "Key length > 8: OPTNAME_TOO_LONG"))
  ++ [⟨false, "-Djsettlers.xyz", none,
        some (.sub "Missing value for property jsettlers.xyz")⟩,
      ⟨false, "-Djsettlers.bots.fast_pause_percent=-2", none,
        some (.sub "Error: Property out of range (0 to 100): jsettlers.bots.fast_pause_percent")⟩,
      ⟨false, "-Djsettlers.bots.fast_pause_percent=101", none,
        some (.sub "Error: Property out of range (0 to 100): jsettlers.bots.fast_pause_percent")⟩,
      ⟨true, "-Djsettlers.bots.fast_pause_percent=3", none, none⟩]
  ++ gameoptSteps false "SC=ZZZ" (some (.sub "default scenario ZZZ is unknown"))
  ++ gameoptSteps false "sc=ZZZ" (some (.sub "default scenario ZZZ is unknown"))
  ++ [⟨false, "-Djsettlers.gameopt.sc=ZZZ", none,
        some (.sub "Command line default scenario ZZZ is unknown")⟩,
      ⟨false, "--test-config", none,
        some (.sub "Config Validation Mode: No problems found.")⟩,
      ⟨false, "-t", none,
        some (.sub "Config Validation Mode: No problems found.")⟩,
      ⟨false, "", some ["jsettlers.test.validate_config=Y"],
        some (.sub "Config Validation Mode: No problems found.")⟩]
  ++ propsSteps false "--test-config"
       ["jsettlers.connections=20", "jsettlers.startrobots=10"]
       (some (.sub "Config Validation Mode: No problems found."))
  ++ propsSteps false "--test-config"
       ["jsettlers.connections=20", "jsettlers.startrobots=11"]
       (some (.sub "jsettlers.connections: Only 9 player connections would be available because of the 11 started robots. Should use 22 for max"))
  ++ propsSteps false "--test-config"
       ["jsettlers.connections=10", "jsettlers.startrobots=4"]
       (some (.sub "Config Validation Mode: No problems found."))
  ++ propsSteps false "--test-config"
       ["jsettlers.connections=9", "jsettlers.startrobots=4"]
       (some (.sub "jsettlers.connections: Only 5 player connections would be available because of the 4 started robots. Should use 10 for max"))

/-- Embedding of `all_tests` (test_startup_params.py:401-483): runs the
declared sequence, then returns `0 == tests_failed_count`. -/
def all_tests (srv : Srv) (st : HarnessState) : Option (Bool × HarnessState) :=
  (runSteps srv st declaredTests).map (fun st' => (st'.failedCount == 0, st'))

/-- Behaviours of the auxiliary commands run by `test_run_and_get_outputs`. -/
structure SysWorld where
  sleep1 : ProcBehavior
  sleep5 : ProcBehavior
  falseCmd : ProcBehavior
  missingProg : ProcBehavior
deriving DecidableEq

/-- `print_result` (test_startup_params.py:216-223): the printed line. -/
def print_result_line (desc : String) (res : Bool) : String :=
  (if res then "ok: " else "FAIL: ") ++ desc

/-- Embedding of `test_run_and_get_outputs` (test_startup_params.py:225-243),
the self-checks of the process runner.  `none` models the run not completing
(an uncaught `OSError` from a no-timeout call, or `communicate()` blocking
forever).  Note the self-checks only print `print_result` lines; they never
touch `tests_failed_count`. -/
def test_run_and_get_outputs (w : SysWorld) (st : HarnessState) :
    Option HarnessState :=
  match (run_and_get_outputs w.sleep1 "sleep" ["1"] 0).1 with
  | .raised => none
  | .hangs => none
  | .returned r1 =>
    let st := { st with
      events := st.events ++ (run_and_get_outputs w.sleep1 "sleep" ["1"] 0).2,
      output := st.output ++ [print_result_line
        ("Test 1: sleep 1: ec == " ++ pyStrOptInt r1.exitCode)
        (r1.exitCode == some 0)] }
    match (run_and_get_outputs w.sleep5 "sleep" ["5"] 3).1 with
    | .raised => none
    | .hangs => none
    | .returned r2 =>
      let st := { st with
        events := st.events ++ (run_and_get_outputs w.sleep5 "sleep" ["5"] 3).2,
        output := st.output ++ [print_result_line
          ("Test 2: sleep 5 with timeout 3: ec == " ++ pyStrOptInt r2.exitCode)
          r2.exitCode.isNone] }
      match (run_and_get_outputs w.falseCmd "false" [] 0).1 with
      | .raised => none
      | .hangs => none
      | .returned r3 =>
        let st := { st with
          events := st.events ++ (run_and_get_outputs w.falseCmd "false" [] 0).2,
          output := st.output ++ [print_result_line
            ("Test 3: false: ec == " ++ pyStrOptInt r3.exitCode)
            (!(r3.exitCode == some 0))] }
        match (run_and_get_outputs w.missingProg "/prog_does_not_Exist" [] 0).1 with
        | .hangs => none
        | .raised =>
          some { st with
            events := st.events
              ++ (run_and_get_outputs w.missingProg "/prog_does_not_Exist" [] 0).2,
            output := st.output
              ++ [print_result_line "Test 4: program should not exist" true] }
        | .returned _ =>
          some { st with
            events := st.events
              ++ (run_and_get_outputs w.missingProg "/prog_does_not_Exist" [] 0).2,
            output := st.output
              ++ [print_result_line "Test 4: program should not exist" false] }

/-- `setup()` (test_startup_params.py:137-141): change to the temp dir and
delete `jsserver.properties` if present. -/
def setup (st : HarnessState) : HarnessState := { st with propsFile := none }

/-- `cleanup()` (test_startup_params.py:486-489): delete
`jsserver.properties` if present. -/
def cleanup (st : HarnessState) : HarnessState := { st with propsFile := none }

/-- Outcome of the pre-flight TCP connect probe of `env_ok`: the connect
succeeded (a server already listens on the port), failed with `IOError`
(refused / timed out — the port is free), or raised some other exception. -/
inductive ConnectOutcome where
  | connected
  | ioErr
  | otherErr (msg : String)
deriving DecidableEq

/-- Host of the pre-flight probe (test_startup_params.py:124). -/
def PORT_PROBE_HOST : String := "127.0.0.1"

/-- TCP port of the pre-flight probe (test_startup_params.py:124). -/
def PORT_PROBE_PORT : Nat := 8880

/-- Connect timeout, seconds, of the pre-flight probe
(test_startup_params.py:123, `s.settimeout(1)`). -/
def PORT_PROBE_TIMEOUT_SEC : Nat := 1

/-- The port-check fragment of `env_ok` (test_startup_params.py:120-133):
`IOError` (connection refused/failed) leaves `all_ok` untouched — the
expected "port free" success; a successful connect, or any other exception,
makes the check fail. -/
def portCheckOk : ConnectOutcome → Bool
  | .connected => false
  | .ioErr => true
  | .otherErr _ => false

/-- Results of the checks `env_ok` performs before the port probe
(directories, properties file sanity, server jar search, `java -version`),
abstracted to their boolean contribution to `all_ok`. -/
structure EnvChecks where
  dirsOk : Bool
  jarOk : Bool
  javaOk : Bool
  portProbe : ConnectOutcome
deriving DecidableEq

/-- Embedding of `env_ok` (test_startup_params.py:48-135): `all_ok` starts
true and each failing check makes it false; the returned value is the
conjunction of all checks. -/
def env_ok (c : EnvChecks) : Bool :=
  c.dirsOk && c.jarOk && c.javaOk && portCheckOk c.portProbe

/-- Arguments of one `arg_test` call in the older variant
(test_func_srv_startup_params.py:204): `expected_output_incl` there is a
plain optional string (no list form). -/
structure OldArgs where
  should_startup : Bool
  cmdline_params : String
  propsfile_contents : Option (List String)
  expected_output_incl : Option String
deriving DecidableEq

/-- Server jar path of the older variant
(test_func_srv_startup_params.py:28). -/
def oldRelPathJsServerJar : String := "../../target/JSettlersServer.jar"

/-- The `args` list the older `arg_test` builds
(test_func_srv_startup_params.py:237-239). -/
def oldBuiltArgs (a : OldArgs) : List String :=
  ["-jar", oldRelPathJsServerJar] ++
    (if a.cmdline_params.length ≠ 0 then pySplit a.cmdline_params else [])

/-- Verdict block of the older `arg_test`
(test_func_srv_startup_params.py:257-270): substring matching only. -/
def old_argVerdict (a : OldArgs) (r : RunReturn) : Bool × String :=
  let did_startup := r.exitCode.isNone
  let prn0 :=
    match r.exitCode with
    | none => "(started up)"
    | some ec => "(exited: " ++ toString ec ++ ")"
  let ret := true
  let ret := if a.should_startup != did_startup then false else ret
  if a.expected_output_incl.isSome && !did_startup then
    if !strHasSub (r.stdout ++ " " ++ r.stderr)
        (a.expected_output_incl.getD "") then
      (false, prn0 ++ " -- missing expected output")
    else (ret, prn0)
  else (ret, prn0)

/-- The run the older `arg_test` observes
(test_func_srv_startup_params.py:255, `timeout=MAX_TIMEOUT_SEC`). -/
def old_argRunReturn (srv : Srv) (a : OldArgs) : RunReturn :=
  runReturnOf
    (run_and_get_outputs (srv (oldBuiltArgs a) a.propsfile_contents) "java"
      (oldBuiltArgs a) MAX_TIMEOUT_SEC).1

/-- The boolean one older `arg_test` call returns (when it does not raise). -/
def old_stepVerdict (srv : Srv) (a : OldArgs) : Bool :=
  (old_argVerdict a (old_argRunReturn srv a)).1

/-- Failure-branch print lines of the older `arg_test`
(test_func_srv_startup_params.py:276-285). -/
def old_failLines (a : OldArgs) (r : RunReturn) (prn : String) : List String :=
  [prn ++ " -> FAIL"]
  ++ (match a.expected_output_incl, r.exitCode with
      | some eo, some _ => ["EXPECTED: " ++ eo]
      | _, _ => [])
  ++ ["STDOUT: " ++ r.stdout, "STDERR: " ++ r.stderr]
  ++ (match a.propsfile_contents with
      | some cs => ["jsserver.properties contents:"] ++ cs
      | none => [])
  ++ [""]

/-- Net state effect of one completed older `arg_test` call
(test_func_srv_startup_params.py:241-286). -/
def old_stepState (srv : Srv) (st : HarnessState) (a : OldArgs) : HarnessState :=
  let args := oldBuiltArgs a
  let r := old_argRunReturn srv a
  let v := old_stepVerdict srv a
  let prn := (old_argVerdict a r).2
  { propsFile := a.propsfile_contents
    failedCount := st.failedCount + (if v then 0 else 1)
    output := st.output
      ++ ["Test: java " ++ String.intercalate " " args
          ++ (if a.propsfile_contents.isSome then "; with jsserver.properties"
              else "; no jsserver.properties")]
      ++ (if v then [prn ++ " -> ok"] else old_failLines a r prn)
    events := st.events
      ++ (run_and_get_outputs (srv args a.propsfile_contents) "java" args
            MAX_TIMEOUT_SEC).2
    results := st.results ++ [v] }

/-- Embedding of the older `arg_test`
(test_func_srv_startup_params.py:204-286); as in the current variant, the
`ValueError` guard (:234-235) fires before any side effect. -/
def old_arg_test (srv : Srv) (st : HarnessState) (a : OldArgs) :
    Option Bool × HarnessState :=
  if a.should_startup && a.expected_output_incl.isSome then (none, st)
  else (some (old_stepVerdict srv a), old_stepState srv st a)

/-- Sequencing of older `arg_test` calls, as `runSteps`. -/
def old_runSteps (srv : Srv) :
    HarnessState → List OldArgs → Option HarnessState
  | st, [] => some st
  | st, a :: rest =>
    match old_arg_test srv st a with
    | (none, _) => none
    | (some _, st') => old_runSteps srv st' rest

/-- The two calls of the older `gameopt_tests_cmdline_propsfile`
(test_func_srv_startup_params.py:311-314). -/
def old_gameoptSteps (should : Bool) (opt : String) (eo : Option String) :
    List OldArgs :=
  [⟨should, "-o " ++ opt, none, eo⟩,
   ⟨should, "", some ["jsettlers.gameopt." ++ opt], eo⟩]

/-- Embedding of the older `gameopt_tests_cmdline_propsfile`
(test_func_srv_startup_params.py:288-314): both sub-tests always run (the
list is built before `all` is applied), result is their conjunction. -/
def old_gameopt_tests_cmdline_propsfile (srv : Srv) (st : HarnessState)
    (should : Bool) (opt : String) (eo : Option String) :
    Option (Bool × HarnessState) :=
  match old_arg_test srv st ⟨should, "-o " ++ opt, none, eo⟩ with
  | (none, _) => none
  | (some b1, st1) =>
    match old_arg_test srv st1
        ⟨should, "", some ["jsettlers.gameopt." ++ opt], eo⟩ with
    | (none, _) => none
    | (some b2, st2) => some (b1 && b2, st2)

/-- The test sequence declared by the older `all_tests`
(test_func_srv_startup_params.py:316-375) in source order, gameopt wrappers
expanded. -/
def oldDeclaredTests : List OldArgs :=
  [⟨true, "", none, none⟩,
   ⟨false, "-o NT=t -o NT=y", none,
     some "option cannot appear twice on command line: NT"⟩,
   ⟨false, "-o NT=t -o nt=f", none,
     some "option cannot appear twice on command line: NT"⟩,
   ⟨false, "-Djsettlers.gameopt.NT=t -Djsettlers.gameopt.nt=f", none,
     some "option cannot appear twice on command line: NT"⟩,
   ⟨false, "-o NT=t -Djsettlers.gameopt.nt=f", none,
     some "option cannot appear twice on command line: NT"⟩,
   ⟨false, "-o", none, some "Missing required option name/value after -o"⟩,
   ⟨true, "", some ["jsettlers.allow.debug=y"], none⟩,
   ⟨true, "", some ["jsettlers.gameopt.NT=y", "jsettlers.gameopt.vp=t12"], none⟩,
   ⟨false, "-oXYZ=t -oZZZ=t", none,
     some "Unknown game option: XYZ\nUnknown game option: ZZZ"⟩,
   ⟨false, "", some ["jsettlers.gameopt.XYZ=t", "jsettlers.gameopt.ZZZ=t"],
     some "Unknown game option: XYZ\nUnknown game option: ZZZ"⟩,
   ⟨false, "-Djsettlers.gameopt.=n", none,
     some "Empty game option name in property key: jsettlers.gameopt."⟩,
   ⟨false, "", some ["jsettlers.gameopt.=n"],
     some "Empty game option name in property key: jsettlers.gameopt."⟩]
  ++ old_gameoptSteps false "un_known=y" (some "Unknown game option: UN_KNOWN")
  ++ [⟨false, "-o RD=g", none, some "Unknown or malformed game option: RD"⟩,
      ⟨false, "-o RD=yy", none, some "Unknown or malformed game option: RD"⟩]
  ++ old_gameoptSteps false "n7=z" (some "Unknown or malformed game option: N7")
  ++ old_gameoptSteps false "vp=z15" (some "Unknown or malformed game option: VP")
  ++ old_gameoptSteps false "OPTNAME_TOO_LONG=t"
       (some "Key length > 8: OPTNAME_TOO_LONG")
  ++ [⟨false, "-Djsettlers.xyz", none,
        some "Missing value for property jsettlers.xyz"⟩]
  ++ old_gameoptSteps false "SC=ZZZ" (some "default scenario ZZZ is unknown")
  ++ old_gameoptSteps false "sc=ZZZ" (some "default scenario ZZZ is unknown")
  ++ [⟨false, "-Djsettlers.gameopt.sc=ZZZ", none,
        some "Command line default scenario ZZZ is unknown"⟩]

/-- Embedding of the older `all_tests`
(test_func_srv_startup_params.py:316-375). -/
def old_all_tests (srv : Srv) (st : HarnessState) :
    Option (Bool × HarnessState) :=
  (old_runSteps srv st oldDeclaredTests).map
    (fun st' => (st'.failedCount == 0, st'))

/-- Embedding of the older `test_run_and_get_outputs`
(test_func_srv_startup_params.py:184-202); identical to the current one
except for the Test 4 description text. -/
def old_test_run_and_get_outputs (w : SysWorld) (st : HarnessState) :
    Option HarnessState :=
  match (run_and_get_outputs w.sleep1 "sleep" ["1"] 0).1 with
  | .raised => none
  | .hangs => none
  | .returned r1 =>
    let st := { st with
      events := st.events ++ (run_and_get_outputs w.sleep1 "sleep" ["1"] 0).2,
      output := st.output ++ [print_result_line
        ("Test 1: sleep 1: ec == " ++ pyStrOptInt r1.exitCode)
        (r1.exitCode == some 0)] }
    match (run_and_get_outputs w.sleep5 "sleep" ["5"] 3).1 with
    | .raised => none
    | .hangs => none
    | .returned r2 =>
      let st := { st with
        events := st.events ++ (run_and_get_outputs w.sleep5 "sleep" ["5"] 3).2,
        output := st.output ++ [print_result_line
          ("Test 2: sleep 5 with timeout 3: ec == " ++ pyStrOptInt r2.exitCode)
          r2.exitCode.isNone] }
      match (run_and_get_outputs w.falseCmd "false" [] 0).1 with
      | .raised => none
      | .hangs => none
      | .returned r3 =>
        let st := { st with
          events := st.events ++ (run_and_get_outputs w.falseCmd "false" [] 0).2,
          output := st.output ++ [print_result_line
            ("Test 3: false: ec == " ++ pyStrOptInt r3.exitCode)
            (!(r3.exitCode == some 0))] }
        match (run_and_get_outputs w.missingProg "/prog_does_not_Exist" [] 0).1 with
        | .hangs => none
        | .raised =>
          some { st with
            events := st.events
              ++ (run_and_get_outputs w.missingProg "/prog_does_not_Exist" [] 0).2,
            output := st.output
              ++ [print_result_line "Test 4: Program does not exist" true] }
        | .returned _ =>
          some { st with
            events := st.events
              ++ (run_and_get_outputs w.missingProg "/prog_does_not_Exist" [] 0).2,
            output := st.output
              ++ [print_result_line "Test 4: Program does not exist" false] }

/-- Environment of one run of the older harness: the result of its
`env_ok()` pre-flight check (abstracted to its boolean), whether
`os.name == 'posix'`, behaviours of the self-check commands, and the
behaviour oracle of the java server under test. -/
structure OldWorld where
  envIsOk : Bool
  osIsPosix : Bool
  sys : SysWorld
  srv : Srv

/-- State at interpreter startup: whatever `jsserver.properties` the
filesystem holds, counter 0, nothing printed, no events, no results. -/
def initState (fs0 : Option (List String)) : HarnessState :=
  ⟨fs0, 0, [], [], []⟩

/-- Tail of the older `main()` after the self-checks
(test_func_srv_startup_params.py:400-408): run `all_tests()` (its boolean
result is discarded; the counter matters), `cleanup()`, print a blank line,
then `sys.exit(tests_failed_count)` when the counter is positive, else print
the all-passed line and fall through (process exit status 0). -/
def old_main_tail (srv : Srv) (st1 : HarnessState) :
    Option (Nat × HarnessState) :=
  (old_all_tests srv st1).map (fun p =>
    let st := cleanup p.2
    let st := { st with output := st.output ++ [""] }
    if st.failedCount > 0 then
      (st.failedCount,
        { st with output := st.output
            ++ ["Total failure count: " ++ toString st.failedCount] })
    else
      (0, { st with output := st.output ++ ["All tests passed."] }))

/-- Embedding of `main()` (test_func_srv_startup_params.py:383-411):
  * if `env_ok()` fails, print a diagnostic and `sys.exit(1)` — before
    `setup()`, before the self-checks, before any test case;
  * otherwise `setup()`, the posix-only self-checks, then `old_main_tail`.
Result: `some (exitStatus, finalState)`; `none` models the script dying on an
uncaught exception (self-check `OSError`, a hang, or `ValueError`). -/
def old_main (w : OldWorld) (fs0 : Option (List String)) :
    Option (Nat × HarnessState) :=
  if w.envIsOk = false then some (1, initState fs0)
  else
    ((if w.osIsPosix then
        old_test_run_and_get_outputs w.sys (setup (initState fs0))
      else some (setup (initState fs0))).bind
      (fun st => old_main_tail w.srv st))

/-- Number of failing test cases of the current harness's declared sequence
under a given server oracle. -/
def newFails (srv : Srv) : Nat :=
  (declaredTests.map (stepVerdict srv)).count false

/-- Number of failing test cases of the older harness's declared sequence
under a given server oracle. -/
def oldFails (srv : Srv) : Nat :=
  (oldDeclaredTests.map (old_stepVerdict srv)).count false

/-- Sample oracle: the server starts and keeps running forever. -/
def srvKeepsRunning : Srv := fun _ _ => .runs ⟨none, 0, "", ""⟩

/-- Sample oracle: the server exits immediately with code 0, empty output. -/
def srvExitsZero : Srv := fun _ _ => .runs ⟨some 0, 0, "", ""⟩

/-- Sample oracle: the server exits immediately printing two lines. -/
def srvTwoLines : Srv := fun _ _ => .runs ⟨some 1, 1, "A\nB", ""⟩

/-- Empty starting state (no properties file on disk). -/
def st0 : HarnessState := initState none

/-- Self-check command behaviours in a healthy unix environment. -/
def sysAllGood : SysWorld :=
  ⟨.runs ⟨some 1, 0, "", ""⟩, .runs ⟨none, 0, "", ""⟩,
   .runs ⟨some 0, 1, "", ""⟩, .execFail⟩

/-- Sample old-harness world whose pre-flight environment check fails. -/
def wEnvFail : OldWorld := ⟨false, true, sysAllGood, srvExitsZero⟩

/-- Sample old-harness world: environment fine, non-posix, server exits 0. -/
def wAllRun : OldWorld := ⟨true, false, sysAllGood, srvExitsZero⟩

/-- Sample old-harness world: like `wAllRun` but posix (self-checks run) and
with self-check commands that misbehave (every self-check prints FAIL). -/
def wBadChecks : OldWorld :=
  ⟨true, true,
   ⟨.runs ⟨some 1, 3, "", ""⟩, .runs ⟨some 1, 4, "", ""⟩,
    .runs ⟨some 0, 0, "", ""⟩, .runs ⟨some 0, 0, "", ""⟩⟩,
   srvExitsZero⟩

/- ------------------------------------------------------------------ -/
/- Helper lemmas                                                      -/
/- ------------------------------------------------------------------ -/

theorem chLeads_iff (n : List Char) : ∀ h : List Char,
    chLeads n h = true ↔ ∃ t, h = n ++ t := by
  induction n with
  | nil => intro h; simp [chLeads]
  | cons a as ih =>
    intro h
    cases h with
    | nil =>
      simp [chLeads]
    | cons b bs =>
      simp only [chLeads, Bool.and_eq_true, beq_iff_eq, ih, List.cons_append,
        List.cons.injEq]
      constructor
      · rintro ⟨rfl, t, rfl⟩; exact ⟨t, rfl, rfl⟩
      · rintro ⟨t, rfl, rfl⟩; exact ⟨rfl, t, rfl⟩

theorem chHasSub_iff (n : List Char) : ∀ h : List Char,
    chHasSub n h = true ↔ ∃ u v, h = u ++ n ++ v := by
  intro h
  induction h with
  | nil =>
    cases n with
    | nil =>
      constructor
      · intro _; exact ⟨[], [], rfl⟩
      · intro _; rfl
    | cons a as =>
      simp [chHasSub, List.isEmpty]
  | cons c t ih =>
    simp only [chHasSub, Bool.or_eq_true, ih, chLeads_iff]
    constructor
    · rintro (⟨s, hs⟩ | ⟨u, v, rfl⟩)
      · exact ⟨[], s, by simp [hs]⟩
      · exact ⟨c :: u, v, by simp⟩
    · rintro ⟨u, v, huv⟩
      cases u with
      | nil =>
        left; exact ⟨v, by simpa using huv⟩
      | cons x xs =>
        right
        obtain ⟨rfl, h2⟩ : c = x ∧ t = xs ++ n ++ v := by simpa using huv
        exact ⟨xs, v, h2⟩

theorem strHasSub_iff (hay needle : String) :
    strHasSub hay needle = true ↔ strOccurs needle hay := by
  simp only [strHasSub, strOccurs]
  exact chHasSub_iff needle.data hay.data

theorem removeMatchedLines_eq_nil_iff (lines : List String) :
    ∀ s : List String, removeMatchedLines lines s = [] ↔ ∀ e ∈ s, e ∈ lines := by
  induction lines with
  | nil =>
    intro s
    constructor
    · intro h; simp [removeMatchedLines] at h; simp [h]
    · intro h
      have : s = [] := List.eq_nil_iff_forall_not_mem.mpr (by simpa using h)
      simp [removeMatchedLines, this]
  | cons l ls ih =>
    intro s
    have hstep : removeMatchedLines (l :: ls) s
        = removeMatchedLines ls (s.filter (fun e => e != l)) := rfl
    rw [hstep, ih]
    constructor
    · intro h e he
      by_cases hel : e = l
      · simp [hel]
      · have := h e (List.mem_filter.mpr ⟨he, by simpa using hel⟩)
        simp [this]
    · intro h e he
      obtain ⟨hes, hne⟩ := List.mem_filter.mp he
      rcases List.mem_cons.mp (h e hes) with h1 | h2
      · exact absurd h1 (by simpa using hne)
      · exact h2

theorem outputOk_iff (eo : ExpectedOutput) (stdout stderr : String) :
    outputOk (some eo) stdout stderr = true ↔
      specMatches (some eo) stdout stderr := by
  cases eo with
  | sub s =>
    simpa [outputOk, specMatches] using
      strHasSub_iff (stdout ++ " " ++ stderr) s
  | lineSet ls =>
    simp only [outputOk, specMatches, List.isEmpty_iff,
      removeMatchedLines_eq_nil_iff]
    constructor
    · intro h e he; exact h e (List.mem_dedup.mpr he)
    · intro h e he; exact h e (List.mem_dedup.mp he)

theorem argVerdict_fst_iff (a : ArgTestArgs) (r : RunReturn)
    (h : ¬(a.should_startup = true ∧ a.expected_output_incl.isSome = true)) :
    (argVerdict a r).1 = true ↔
      (r.exitCode.isNone = a.should_startup ∧
       (r.exitCode.isNone = false →
         specMatches a.expected_output_incl r.stdout r.stderr)) := by
  rcases heo : a.expected_output_incl with _ | eo
  · rcases hec : r.exitCode with _ | ec <;>
      rcases hs : a.should_startup <;>
        simp [argVerdict, heo, hec, hs, specMatches]
  · have hs : a.should_startup = false := by
      rcases hb : a.should_startup
      · rfl
      · exact absurd ⟨hb, by simp [heo]⟩ h
    rcases hec : r.exitCode with _ | ec
    · simp [argVerdict, heo, hec, hs]
    · rcases hok : outputOk (some eo) r.stdout r.stderr
      · have hnm : ¬ specMatches (some eo) r.stdout r.stderr := by
          intro hm
          rw [(outputOk_iff eo r.stdout r.stderr).mpr hm] at hok
          simp at hok
        simp [argVerdict, heo, hec, hs, hok, hnm]
      · have hm := (outputOk_iff eo r.stdout r.stderr).mp hok
        simp [argVerdict, heo, hec, hs, hok, hm]

theorem arg_test_completes (srv : Srv) (st : HarnessState) (a : ArgTestArgs)
    (h : (a.should_startup && a.expected_output_incl.isSome) = false) :
    arg_test srv st a = (some (stepVerdict srv a), stepState srv st a) := by
  simp [arg_test, h]

theorem old_arg_test_completes (srv : Srv) (st : HarnessState) (a : OldArgs)
    (h : (a.should_startup && a.expected_output_incl.isSome) = false) :
    old_arg_test srv st a = (some (old_stepVerdict srv a), old_stepState srv st a) := by
  simp [old_arg_test, h]

theorem twoStepAll_completes (b1 : Bool) (st1 : HarnessState)
    (k : HarnessState → Option Bool × HarnessState) (b2 : Bool)
    (st2 : HarnessState) (hk : k st1 = (some b2, st2)) :
    twoStepAll (some b1, st1) k = some (b1 && b2, st2) := by
  simp [twoStepAll, hk]

theorem stepState_failedCount (srv : Srv) (st : HarnessState) (a : ArgTestArgs) :
    (stepState srv st a).failedCount
      = st.failedCount + (if stepVerdict srv a then 0 else 1) := rfl

theorem stepState_results (srv : Srv) (st : HarnessState) (a : ArgTestArgs) :
    (stepState srv st a).results = st.results ++ [stepVerdict srv a] := rfl

theorem old_stepState_failedCount (srv : Srv) (st : HarnessState) (a : OldArgs) :
    (old_stepState srv st a).failedCount
      = st.failedCount + (if old_stepVerdict srv a then 0 else 1) := rfl

theorem old_stepState_results (srv : Srv) (st : HarnessState) (a : OldArgs) :
    (old_stepState srv st a).results = st.results ++ [old_stepVerdict srv a] := rfl

theorem runSteps_complete (srv : Srv) :
    ∀ steps : List ArgTestArgs,
      (∀ a ∈ steps, (a.should_startup && a.expected_output_incl.isSome) = false) →
      ∀ st : HarnessState, ∃ st',
        runSteps srv st steps = some st'
        ∧ st'.failedCount
            = st.failedCount + (steps.map (stepVerdict srv)).count false
        ∧ st'.results = st.results ++ steps.map (stepVerdict srv) := by
  intro steps
  induction steps with
  | nil => intro _ st; exact ⟨st, rfl, by simp, by simp⟩
  | cons a rest ih =>
    intro h st
    have ha := h a (by simp)
    obtain ⟨st', h1, h2, h3⟩ :=
      ih (fun x hx => h x (by simp [hx])) (stepState srv st a)
    refine ⟨st', ?_, ?_, ?_⟩
    · simp [runSteps, arg_test_completes srv st a ha, h1]
    · rw [h2, stepState_failedCount]
      rcases hv : stepVerdict srv a <;> (simp [List.count_cons, hv]; try omega)
    · rw [h3, stepState_results]
      simp

theorem old_runSteps_complete (srv : Srv) :
    ∀ steps : List OldArgs,
      (∀ a ∈ steps, (a.should_startup && a.expected_output_incl.isSome) = false) →
      ∀ st : HarnessState, ∃ st',
        old_runSteps srv st steps = some st'
        ∧ st'.failedCount
            = st.failedCount + (steps.map (old_stepVerdict srv)).count false
        ∧ st'.results = st.results ++ steps.map (old_stepVerdict srv) := by
  intro steps
  induction steps with
  | nil => intro _ st; exact ⟨st, rfl, by simp, by simp⟩
  | cons a rest ih =>
    intro h st
    have ha := h a (by simp)
    obtain ⟨st', h1, h2, h3⟩ :=
      ih (fun x hx => h x (by simp [hx])) (old_stepState srv st a)
    refine ⟨st', ?_, ?_, ?_⟩
    · simp [old_runSteps, old_arg_test_completes srv st a ha, h1]
    · rw [h2, old_stepState_failedCount]
      rcases hv : old_stepVerdict srv a <;> (simp [List.count_cons, hv]; try omega)
    · rw [h3, old_stepState_results]
      simp

theorem test_run_preserves (w : SysWorld) (st st' : HarnessState)
    (h : test_run_and_get_outputs w st = some st') :
    st'.failedCount = st.failedCount ∧ st'.results = st.results
      ∧ st'.propsFile = st.propsFile := by
  unfold test_run_and_get_outputs at h
  repeat' split at h
  all_goals first
    | exact Option.noConfusion h
    | (injection h with h2; subst h2; exact ⟨rfl, rfl, rfl⟩)

theorem old_test_run_preserves (w : SysWorld) (st st' : HarnessState)
    (h : old_test_run_and_get_outputs w st = some st') :
    st'.failedCount = st.failedCount ∧ st'.results = st.results
      ∧ st'.propsFile = st.propsFile := by
  unfold old_test_run_and_get_outputs at h
  repeat' split at h
  all_goals first
    | exact Option.noConfusion h
    | (injection h with h2; subst h2; exact ⟨rfl, rfl, rfl⟩)

theorem all_tests_fst (srv : Srv) (st : HarnessState) :
    (all_tests srv st).map (fun p => p.1)
      = some ((st.failedCount + newFails srv) == 0) := by
  obtain ⟨st', h1, h2, h3⟩ := runSteps_complete srv declaredTests (by decide) st
  simp [all_tests, h1, h2, newFails]

theorem old_main_tail_char (srv : Srv) (st1 : HarnessState) :
    ∀ n st, old_main_tail srv st1 = some (n, st) →
      n = st1.failedCount + oldFails srv
      ∧ st.results = st1.results ++ oldDeclaredTests.map (old_stepVerdict srv) := by
  intro n st h
  obtain ⟨st3, hr, hc, hres⟩ :=
    old_runSteps_complete srv oldDeclaredTests (by decide) st1
  unfold old_main_tail at h
  rw [show old_all_tests srv st1 = some (st3.failedCount == 0, st3) by
        simp [old_all_tests, hr]] at h
  simp only [Option.map] at h
  split at h
  · simp only [Option.some.injEq, Prod.mk.injEq] at h
    obtain ⟨h1, h2⟩ := h
    subst h1; subst h2
    exact ⟨by simpa [cleanup] using hc, by simpa [cleanup] using hres⟩
  · rename_i hle
    simp only [Option.some.injEq, Prod.mk.injEq] at h
    obtain ⟨h1, h2⟩ := h
    subst h1; subst h2
    constructor
    · have h0 : st3.failedCount = 0 := by
        simpa [cleanup] using Nat.eq_zero_of_not_pos (by simpa [cleanup] using hle)
      rw [hc] at h0
      simp [oldFails]
      omega
    · simpa [cleanup] using hres

theorem old_main_char (w : OldWorld) (fs0 : Option (List String))
    (he : w.envIsOk = true) :
    ∀ n st, old_main w fs0 = some (n, st) →
      n = oldFails w.srv
      ∧ st.results = oldDeclaredTests.map (old_stepVerdict w.srv) := by
  intro n st h
  unfold old_main at h
  rw [he, if_neg (by simp)] at h
  rcases hpx : w.osIsPosix
  · rw [hpx, if_neg (by simp)] at h
    simp only [Option.some_bind] at h
    have := old_main_tail_char w.srv (setup (initState fs0)) n st h
    simpa [setup, initState] using this
  · rw [hpx, if_pos rfl] at h
    rcases hst2 : old_test_run_and_get_outputs w.sys (setup (initState fs0))
        with _ | st2
    · rw [hst2] at h
      exact Option.noConfusion h
    · rw [hst2] at h
      simp only [Option.some_bind] at h
      obtain ⟨hfc2, hres2, -⟩ := old_test_run_preserves w.sys _ _ hst2
      have := old_main_tail_char w.srv st2 n st h
      rw [hfc2, hres2] at this
      simpa [setup, initState] using this

/- ------------------------------------------------------------------ -/
/- Claim theorems                                                     -/
/- ------------------------------------------------------------------ -/

/-- C1 (amended): for every invocation run by `_run_and_get_outputs` with a
timeout set, on a spawnable process: if the subprocess completes before the
timeout elapses, the returned exit code is the process's real exit code and
no termination signal is sent; if the timeout elapses first, a graceful
SIGTERM (not a forced kill) is sent to the spawned process itself — not to
the process group — a fixed grace delay of 1 second is then waited, and the
returned exit code is absent (`None`) regardless of whether the process
actually exited during or after the termination request. -/
theorem C1_runner_timeout (p : ProcSpec) (cmd : String) (args : List String)
    (t : Nat) (ht : t ≠ 0) :
    (∀ rt, p.runtime = some rt → rt < t →
      (run_and_get_outputs (.runs p) cmd args t).1
          = .returned ⟨some p.exitCode, p.out, p.err⟩
      ∧ ∀ s tg, OsEvent.signaled s tg ∉
          (run_and_get_outputs (.runs p) cmd args t).2)
    ∧ ((p.runtime = none ∨ ∃ rt, p.runtime = some rt ∧ t ≤ rt) →
      run_and_get_outputs (.runs p) cmd args t
        = (.returned ⟨none, "", ""⟩,
           [.spawned (prepArgs cmd args), .signaled .sigterm .child,
            .slept 1])) := by
  constructor
  · intro rt hrt hlt
    simp [run_and_get_outputs, ht, hrt, hlt]
  · intro hcase
    rcases hcase with hnone | ⟨rt, hrt, hge⟩
    · simp [run_and_get_outputs, ht, hnone]
    · have hnlt : ¬ (rt < t) := by omega
      simp [run_and_get_outputs, ht, hrt, hnlt]

/-- C1 (counterexample): on a concrete timed-out invocation the termination
request is delivered to the child process alone; no event ever targets the
process group, refuting the claim's "sent to the process group". -/
theorem C1_counterexample :
    run_and_get_outputs (.runs ⟨none, 0, "", ""⟩) "java"
        ["-jar", "JSettlersServer.jar"] 20
      = (.returned ⟨none, "", ""⟩,
         [.spawned ["java", "-jar", "JSettlersServer.jar"],
          .signaled .sigterm .child, .slept 1])
    ∧ OsEvent.signaled .sigterm .childGroup ∉
        (run_and_get_outputs (.runs ⟨none, 0, "", ""⟩) "java"
          ["-jar", "JSettlersServer.jar"] 20).2 := by
  decide

/-- C1 (witness): concrete instances of both branches of
`C1_runner_timeout`. -/
theorem C1_witness :
    ((run_and_get_outputs (.runs ⟨some 1, 7, "o", "e"⟩) "java" [] 20).1
        = .returned ⟨some 7, "o", "e"⟩)
    ∧ (run_and_get_outputs (.runs ⟨none, 2, "x", "y"⟩) "java" [] 20
        = (.returned ⟨none, "", ""⟩,
           [.spawned ["java"], .signaled .sigterm .child, .slept 1])) := by
  refine ⟨((C1_runner_timeout ⟨some 1, 7, "o", "e"⟩ "java" [] 20
      (by decide)).1 1 rfl (by decide)).1, ?_⟩
  have h := (C1_runner_timeout ⟨none, 2, "x", "y"⟩ "java" [] 20 (by decide)).2
      (Or.inl rfl)
  simpa [prepArgs] using h

/-- C2 (amended): when the command cannot be located or executed, the
`OSError` raised by `Popen` propagates to the caller only when no timeout is
set; with a timeout set, the exception is raised inside the worker thread
and swallowed by the threading machinery, and `_run_and_get_outputs` instead
returns with the exit code absent (indistinguishable from a timed-out
process). -/
theorem C2_oserror_propagation (cmd : String) (args : List String) :
    ((run_and_get_outputs .execFail cmd args 0).1 = .raised)
    ∧ (∀ t : Nat, t ≠ 0 →
        (run_and_get_outputs .execFail cmd args t).1
          = .returned ⟨none, "", ""⟩) := by
  constructor
  · simp [run_and_get_outputs]
  · intro t ht
    simp [run_and_get_outputs, ht]

/-- C2 (counterexample): with a timeout of 20 seconds the missing-executable
failure does NOT raise; the call returns `(None, "", "")`, refuting the
claim's "for every value of the timeout parameter". -/
theorem C2_counterexample :
    run_and_get_outputs .execFail "/prog_does_not_Exist" [] 20
      = (.returned ⟨none, "", ""⟩, [.spawnFailed ["/prog_does_not_Exist"]])
    ∧ (run_and_get_outputs .execFail "/prog_does_not_Exist" [] 20).1
        ≠ .raised := by
  decide

/-- C2 (witness): concrete instances of both branches of
`C2_oserror_propagation`. -/
theorem C2_witness :
    ((run_and_get_outputs .execFail "/prog" ["x"] 0).1 = .raised)
    ∧ ((run_and_get_outputs .execFail "/prog" ["x"] 20).1
        = .returned ⟨none, "", ""⟩) :=
  ⟨(C2_oserror_propagation "/prog" ["x"]).1,
   (C2_oserror_propagation "/prog" ["x"]).2 20 (by decide)⟩

/-- C4: `arg_test` raises `ValueError` if and only if it is called with
`should_startup == True` and `expected_output_incl` not `None`; when it
raises, it does so before any side effect — the resulting state equals the
incoming state, so `jsserver.properties` is neither written nor deleted, no
subprocess is spawned (the event trace is unchanged) and
`tests_failed_count` is unchanged. -/
theorem C4_valueerror_guard (srv : Srv) (st : HarnessState) (a : ArgTestArgs) :
    ((arg_test srv st a).1 = none ↔
      (a.should_startup = true ∧ a.expected_output_incl.isSome = true))
    ∧ ((arg_test srv st a).1 = none → (arg_test srv st a).2 = st) := by
  rcases hc : (a.should_startup && a.expected_output_incl.isSome)
  · constructor
    · constructor
      · intro h
        rw [arg_test_completes srv st a hc] at h
        exact Option.noConfusion h
      · intro h2
        rw [← Bool.and_eq_true] at h2
        rw [h2] at hc
        exact Bool.noConfusion hc
    · intro h
      rw [arg_test_completes srv st a hc] at h
      exact Option.noConfusion h
  · have h2 := hc
    rw [Bool.and_eq_true] at h2
    constructor
    · simp [arg_test, hc, h2]
    · intro _
      simp [arg_test, hc]

/-- C4 (witness): a concrete misuse raises and leaves the state intact. -/
theorem C4_witness :
    (arg_test srvExitsZero st0 ⟨true, "-o NT=t", none, some (.sub "x")⟩).1 = none
    ∧ (arg_test srvExitsZero st0 ⟨true, "-o NT=t", none, some (.sub "x")⟩).2
        = st0 := by
  have h := C4_valueerror_guard srvExitsZero st0
      ⟨true, "-o NT=t", none, some (.sub "x")⟩
  have h1 := h.1.mpr ⟨rfl, rfl⟩
  exact ⟨h1, h.2 h1⟩

/-- C6: the pre-flight port check connects to 127.0.0.1 port 8880 with a
1-second timeout and treats a refused/failed connection (`IOError`) as the
successful "port free" outcome; a successful connection, or any non-IOError
exception, makes `env_ok` return false. -/
theorem C6_port_probe :
    (PORT_PROBE_HOST = "127.0.0.1" ∧ PORT_PROBE_PORT = 8880
      ∧ PORT_PROBE_TIMEOUT_SEC = 1)
    ∧ portCheckOk .ioErr = true
    ∧ (∀ c : EnvChecks, c.portProbe = .ioErr →
        env_ok c = (c.dirsOk && c.jarOk && c.javaOk))
    ∧ (∀ c : EnvChecks, c.portProbe = .connected → env_ok c = false)
    ∧ (∀ c : EnvChecks, ∀ msg, c.portProbe = .otherErr msg →
        env_ok c = false) := by
  refine ⟨⟨rfl, rfl, rfl⟩, rfl, ?_, ?_, ?_⟩
  · intro c h
    simp [env_ok, portCheckOk, h]
  · intro c h
    simp [env_ok, portCheckOk, h]
  · intro c msg h
    simp [env_ok, portCheckOk, h]

/-- C6 (witness): concrete environments with each probe outcome. -/
theorem C6_witness :
    env_ok ⟨true, true, true, .connected⟩ = false
    ∧ env_ok ⟨true, true, true, .ioErr⟩ = true
    ∧ env_ok ⟨true, true, true, .otherErr "e"⟩ = false := by
  refine ⟨C6_port_probe.2.2.2.1 ⟨true, true, true, .connected⟩ rfl, ?_,
    C6_port_probe.2.2.2.2 ⟨true, true, true, .otherErr "e"⟩ "e" rfl⟩
  have h := C6_port_probe.2.2.1 ⟨true, true, true, .ioErr⟩ rfl
  simpa using h

/-- C7 (amended): running `arg_test` with an empty (zero-line)
`propsfile_contents` list gives the same classification and pass/fail result
(and the same recorded result history and failure-counter effect) as running
it with `None`, provided the server behaves identically under an empty
properties file and an absent one; but the printed description and the
resulting filesystem state differ — the empty list writes an empty
`jsserver.properties` (described as "; with jsserver.properties") while
`None` deletes the file (described as "; no jsserver.properties"). -/
theorem C7_empty_propsfile (srv : Srv) (st : HarnessState) (should : Bool)
    (cp : String) (eo : Option ExpectedOutput)
    (h : ∀ args, srv args (some []) = srv args none) :
    ((arg_test srv st ⟨should, cp, some [], eo⟩).1
        = (arg_test srv st ⟨should, cp, none, eo⟩).1)
    ∧ ((arg_test srv st ⟨should, cp, some [], eo⟩).2.failedCount
        = (arg_test srv st ⟨should, cp, none, eo⟩).2.failedCount)
    ∧ ((arg_test srv st ⟨should, cp, some [], eo⟩).2.results
        = (arg_test srv st ⟨should, cp, none, eo⟩).2.results) := by
  have hb : builtArgs ⟨should, cp, some [], eo⟩
      = builtArgs ⟨should, cp, none, eo⟩ := rfl
  have hr : argRunReturn srv ⟨should, cp, some [], eo⟩
      = argRunReturn srv ⟨should, cp, none, eo⟩ := by
    unfold argRunReturn
    rw [hb, show (⟨should, cp, some [], eo⟩ : ArgTestArgs).propsfile_contents
          = some ([] : List String) from rfl,
        show (⟨should, cp, none, eo⟩ : ArgTestArgs).propsfile_contents
          = (none : Option (List String)) from rfl,
        h (builtArgs ⟨should, cp, none, eo⟩)]
  have hv : stepVerdict srv ⟨should, cp, some [], eo⟩
      = stepVerdict srv ⟨should, cp, none, eo⟩ := by
    unfold stepVerdict
    rw [hr]
    rfl
  rcases hg : (should && eo.isSome)
  · rw [arg_test_completes srv st ⟨should, cp, some [], eo⟩ (by simpa using hg),
        arg_test_completes srv st ⟨should, cp, none, eo⟩ (by simpa using hg)]
    refine ⟨by rw [hv], ?_, ?_⟩
    · rw [stepState_failedCount, stepState_failedCount, hv]
    · rw [stepState_results, stepState_results, hv]
  · have hga : ((⟨should, cp, some [], eo⟩ : ArgTestArgs).should_startup
        && (⟨should, cp, some [], eo⟩ : ArgTestArgs).expected_output_incl.isSome)
        = true := by simpa using hg
    have hgb : ((⟨should, cp, none, eo⟩ : ArgTestArgs).should_startup
        && (⟨should, cp, none, eo⟩ : ArgTestArgs).expected_output_incl.isSome)
        = true := by simpa using hg
    simp [arg_test, hga, hgb]

/-- C7 (counterexample): at a concrete test case, the empty-list run and the
`None` run produce a different `jsserver.properties` filesystem state (empty
file vs deleted) and a different printed description, refuting the claim's
"behaves identically ... same printed description, and same filesystem
state"; the pass/fail result is nevertheless the same here. -/
theorem C7_counterexample :
    ((arg_test srvKeepsRunning st0 ⟨true, "", some [], none⟩).2.propsFile
      ≠ (arg_test srvKeepsRunning st0 ⟨true, "", none, none⟩).2.propsFile)
    ∧ ((arg_test srvKeepsRunning st0 ⟨true, "", some [], none⟩).2.output
      ≠ (arg_test srvKeepsRunning st0 ⟨true, "", none, none⟩).2.output)
    ∧ ((arg_test srvKeepsRunning st0 ⟨true, "", some [], none⟩).1
      = (arg_test srvKeepsRunning st0 ⟨true, "", none, none⟩).1) := by
  decide

/-- C7 (witness): a concrete instance of the amended equivalence. -/
theorem C7_witness :
    ((arg_test srvKeepsRunning st0 ⟨true, "-o NT=t", some [], none⟩).1
        = (arg_test srvKeepsRunning st0 ⟨true, "-o NT=t", none, none⟩).1)
    ∧ ((arg_test srvKeepsRunning st0 ⟨true, "-o NT=t", some [], none⟩).2.failedCount
        = (arg_test srvKeepsRunning st0 ⟨true, "-o NT=t", none, none⟩).2.failedCount) := by
  have h := C7_empty_propsfile srvKeepsRunning st0 true "-o NT=t" none
      (fun _ => rfl)
  exact ⟨h.1, h.2.1⟩

/-- C8: the declared test sequence of `all_tests` contains the Config
Validation Mode case with `jsettlers.connections=9` and
`jsettlers.startrobots=4` under `--test-config`, expanded into two runs —
once as `-D` command-line properties, once as a properties file — both
declared with `should_startup = False` and the expected computed-capacity
warning naming the shortfall (5 available, should use 10). -/
theorem C8_config_validation_case :
    propsSteps false "--test-config"
        ["jsettlers.connections=9", "jsettlers.startrobots=4"]
        (some (.sub "jsettlers.connections: Only 5 player connections would be available because of the 4 started robots. Should use 10 for max"))
      = [⟨false,
          "--test-config -Djsettlers.connections=9 -Djsettlers.startrobots=4",
          none,
          some (.sub "jsettlers.connections: Only 5 player connections would be available because of the 4 started robots. Should use 10 for max")⟩,
         ⟨false, "--test-config",
          some ["jsettlers.connections=9", "jsettlers.startrobots=4"],
          some (.sub "jsettlers.connections: Only 5 player connections would be available because of the 4 started robots. Should use 10 for max")⟩]
    ∧ (⟨false,
        "--test-config -Djsettlers.connections=9 -Djsettlers.startrobots=4",
        none,
        some (.sub "jsettlers.connections: Only 5 player connections would be available because of the 4 started robots. Should use 10 for max")⟩
          : ArgTestArgs) ∈ declaredTests
    ∧ (⟨false, "--test-config",
        some ["jsettlers.connections=9", "jsettlers.startrobots=4"],
        some (.sub "jsettlers.connections: Only 5 player connections would be available because of the 4 started robots. Should use 10 for max")⟩
          : ArgTestArgs) ∈ declaredTests := by
  refine ⟨by decide, ?_, ?_⟩
  · decide
  · decide

/-- C3: for every completed invocation of `arg_test`, the classification is
did_startup = (exit code is None), and `arg_test` returns True (pass) if and
only if did_startup equals should_startup and, when the process did not
remain running and `expected_output_incl` is given: for a string, it occurs
as a substring of the combined captured stdout and stderr; for a list, every
distinct string of the list appears verbatim as a complete line somewhere in
the combined output, in any order, with duplicates collapsing to a single
requirement each. -/
theorem C3_arg_test_classification (srv : Srv) (st : HarnessState)
    (a : ArgTestArgs)
    (h : ¬(a.should_startup = true ∧ a.expected_output_incl.isSome = true)) :
    (arg_test srv st a).1 = some true ↔
      ((argRunReturn srv a).exitCode.isNone = a.should_startup ∧
       ((argRunReturn srv a).exitCode.isNone = false →
         specMatches a.expected_output_incl (argRunReturn srv a).stdout
           (argRunReturn srv a).stderr)) := by
  have hc : (a.should_startup && a.expected_output_incl.isSome) = false := by
    rcases hb : (a.should_startup && a.expected_output_incl.isSome)
    · rfl
    · rw [Bool.and_eq_true] at hb
      exact absurd hb h
  rw [arg_test_completes srv st a hc]
  simp only [Option.some.injEq]
  exact argVerdict_fst_iff a (argRunReturn srv a) h

/-- C3 (witness): a concrete passing invocation whose line-set expectation
(with a duplicate entry) is met by the captured output. -/
theorem C3_witness :
    (arg_test srvTwoLines st0
      ⟨false, "", none, some (.lineSet ["A", "B", "A"])⟩).1 = some true := by
  have h := C3_arg_test_classification srvTwoLines st0
      ⟨false, "", none, some (.lineSet ["A", "B", "A"])⟩ (by simp)
  refine h.mpr ⟨by decide, fun _ => ?_⟩
  show ∀ e ∈ ["A", "B", "A"],
    e ∈ pySplitCh (Char.ofNat 10) ((argRunReturn srvTwoLines
        ⟨false, "", none, some (.lineSet ["A", "B", "A"])⟩).stdout
      ++ "\n" ++ (argRunReturn srvTwoLines
        ⟨false, "", none, some (.lineSet ["A", "B", "A"])⟩).stderr)
  decide

/-- C5: the old harness's process exit status: it exits early with code 1,
before running any test case, when the pre-flight `env_ok` check fails;
otherwise, whenever `main` terminates normally after the test cases have
run, it exits with the count of failed test cases when that count is
nonzero, and with 0 when all test cases pass. -/
theorem C5_harness_exit (w : OldWorld) (fs0 : Option (List String)) :
    (w.envIsOk = false →
      old_main w fs0 = some (1, initState fs0)
      ∧ (initState fs0).results = [] ∧ (initState fs0).events = [])
    ∧ (w.envIsOk = true → ∀ n st, old_main w fs0 = some (n, st) →
        (st.results.count false ≠ 0 → n = st.results.count false)
        ∧ (st.results.count false = 0 → n = 0)) := by
  constructor
  · intro he
    refine ⟨?_, rfl, rfl⟩
    unfold old_main
    rw [he]
    simp
  · intro he n st h
    obtain ⟨hn, hres⟩ := old_main_char w fs0 he n st h
    have hcount : st.results.count false = oldFails w.srv := by
      rw [hres]
      rfl
    constructor
    · intro _
      omega
    · intro h0
      omega

/-- C5 (witness): the early-exit branch at a failing environment, and the
normal branch of a full concrete run (every old test case fails under a
server that exits 0 with empty output, so the exit status equals the
failed-case count). -/
theorem C5_witness :
    old_main wEnvFail none = some (1, initState none)
    ∧ ((old_main wAllRun none).map
        (fun p => decide (p.1 = p.2.results.count false)) = some true) := by
  constructor
  · exact ((C5_harness_exit wEnvFail none).1 rfl).1
  · have hs : (old_main wAllRun none).isSome = true := by decide
    obtain ⟨⟨n, st⟩, hm⟩ := Option.isSome_iff_exists.mp hs
    have h := (C5_harness_exit wAllRun none).2 rfl n st hm
    have hn : n = st.results.count false := by
      by_cases h0 : st.results.count false = 0
      · rw [h.2 h0, h0]
      · exact h.1 h0
    rw [hm]
    simp [hn]

/-- C9: `tests_failed_count` never decreases and is modified only by
`arg_test`: a completed call returning False increments it by exactly 1 and
a call returning True leaves it unchanged (a raising call leaves the whole
state unchanged, see the C4 theorem); the `print_result` self-checks of
`test_run_and_get_outputs` modify neither the counter nor the result
history, so a failing self-check can affect neither `all_tests`'s boolean
result nor the old harness's final exit status. -/
theorem C9_failure_counter :
    (∀ (srv : Srv) (st : HarnessState) (a : ArgTestArgs),
      (arg_test srv st a).1 = some true →
        (arg_test srv st a).2.failedCount = st.failedCount)
    ∧ (∀ (srv : Srv) (st : HarnessState) (a : ArgTestArgs),
      (arg_test srv st a).1 = some false →
        (arg_test srv st a).2.failedCount = st.failedCount + 1)
    ∧ (∀ (srv : Srv) (st : HarnessState) (a : ArgTestArgs),
        st.failedCount ≤ (arg_test srv st a).2.failedCount)
    ∧ (∀ (w : SysWorld) (st st' : HarnessState),
        test_run_and_get_outputs w st = some st' →
          st'.failedCount = st.failedCount ∧ st'.results = st.results)
    ∧ (∀ (srv : Srv) (st st'' : HarnessState),
        st.failedCount = st''.failedCount →
          (all_tests srv st).map (fun p => p.1)
            = (all_tests srv st'').map (fun p => p.1))
    ∧ (∀ (srv : Srv) (sys sys' : SysWorld) (px px' : Bool)
         (fs fs' : Option (List String)) (n n' : Nat)
         (st st' : HarnessState),
        old_main ⟨true, px, sys, srv⟩ fs = some (n, st) →
        old_main ⟨true, px', sys', srv⟩ fs' = some (n', st') → n = n') := by
  refine ⟨?_, ?_, ?_, ?_, ?_, ?_⟩
  · intro srv st a h
    rcases hg : (a.should_startup && a.expected_output_incl.isSome)
    · rw [arg_test_completes srv st a hg] at h ⊢
      simp only [Option.some.injEq] at h
      rw [stepState_failedCount, h]
      simp
    · rw [show arg_test srv st a = (none, st) by simp [arg_test, hg]] at h
      exact Option.noConfusion h
  · intro srv st a h
    rcases hg : (a.should_startup && a.expected_output_incl.isSome)
    · rw [arg_test_completes srv st a hg] at h ⊢
      simp only [Option.some.injEq] at h
      rw [stepState_failedCount, h]
      simp
    · rw [show arg_test srv st a = (none, st) by simp [arg_test, hg]] at h
      exact Option.noConfusion h
  · intro srv st a
    rcases hg : (a.should_startup && a.expected_output_incl.isSome)
    · rw [arg_test_completes srv st a hg, stepState_failedCount]
      exact Nat.le_add_right _ _
    · rw [show arg_test srv st a = (none, st) by simp [arg_test, hg]]
  · intro w st st' h
    exact ⟨(test_run_preserves w st st' h).1, (test_run_preserves w st st' h).2.1⟩
  · intro srv st st'' he
    rw [all_tests_fst, all_tests_fst, he]
  · intro srv sys sys' px px' fs fs' n n' st st' h1 h2
    have e1 := (old_main_char ⟨true, px, sys, srv⟩ fs rfl n st h1).1
    have e2 := (old_main_char ⟨true, px', sys', srv⟩ fs' rfl n' st' h2).1
    rw [e1, e2]

/-- C9 (witness): concrete instances — a passing call leaves the counter, a
failing call increments it by one, and two runs differing only in self-check
behaviour and posix flag produce the same exit status. -/
theorem C9_witness :
    ((arg_test srvKeepsRunning st0 ⟨true, "", none, none⟩).2.failedCount
        = st0.failedCount)
    ∧ ((arg_test srvExitsZero st0 ⟨true, "", none, none⟩).2.failedCount
        = st0.failedCount + 1)
    ∧ ((old_main wAllRun none).map (fun p => p.1)
        = (old_main wBadChecks none).map (fun p => p.1)) := by
  refine ⟨C9_failure_counter.1 srvKeepsRunning st0 ⟨true, "", none, none⟩
      (by decide),
    C9_failure_counter.2.1 srvExitsZero st0 ⟨true, "", none, none⟩
      (by decide), ?_⟩
  have hs1 : (old_main wAllRun none).isSome = true := by decide
  have hs2 : (old_main wBadChecks none).isSome = true := by decide
  obtain ⟨⟨n1, s1⟩, h1⟩ := Option.isSome_iff_exists.mp hs1
  obtain ⟨⟨n2, s2⟩, h2⟩ := Option.isSome_iff_exists.mp hs2
  have hnn := C9_failure_counter.2.2.2.2.2 srvExitsZero sysAllGood
      wBadChecks.sys false true none none n1 n2 s1 s2 h1 h2
  rw [h1, h2, hnn]
  rfl

/-- C10: `gameopt_tests_cmdline_propsfile` and
`props_tests_cmdline_propsfile` always execute both of their two `arg_test`
sub-tests — the command-line form and then the properties-file form, with
the state threaded through both and no boolean short-circuit (the second
sub-test runs and records its result even when the first fails) — and
return True if and only if both sub-tests return True (the returned boolean
is the conjunction of the two sub-test verdicts). -/
theorem C10_both_subtests (srv : Srv) (st : HarnessState) (should : Bool)
    (opt common : String) (props : List String) (eo : Option ExpectedOutput)
    (h : ¬(should = true ∧ eo.isSome = true)) (hp : props ≠ []) :
    (gameopt_tests_cmdline_propsfile srv st should opt eo
      = some
          (stepVerdict srv ⟨should, "-o " ++ opt, none, eo⟩
            && stepVerdict srv
                ⟨should, "", some ["jsettlers.gameopt." ++ opt], eo⟩,
           stepState srv (stepState srv st ⟨should, "-o " ++ opt, none, eo⟩)
             ⟨should, "", some ["jsettlers.gameopt." ++ opt], eo⟩)
      ∧ (stepState srv (stepState srv st ⟨should, "-o " ++ opt, none, eo⟩)
           ⟨should, "", some ["jsettlers.gameopt." ++ opt], eo⟩).results
          = st.results
            ++ [stepVerdict srv ⟨should, "-o " ++ opt, none, eo⟩,
                stepVerdict srv
                  ⟨should, "", some ["jsettlers.gameopt." ++ opt], eo⟩])
    ∧ (props_tests_cmdline_propsfile srv st should common props eo
      = some
          (stepVerdict srv
              ⟨should, common ++ " -D" ++ String.intercalate " -D" props,
               none, eo⟩
            && stepVerdict srv ⟨should, common, some props, eo⟩,
           stepState srv
             (stepState srv st
               ⟨should, common ++ " -D" ++ String.intercalate " -D" props,
                none, eo⟩)
             ⟨should, common, some props, eo⟩)
      ∧ (stepState srv
           (stepState srv st
             ⟨should, common ++ " -D" ++ String.intercalate " -D" props,
              none, eo⟩)
           ⟨should, common, some props, eo⟩).results
          = st.results
            ++ [stepVerdict srv
                  ⟨should, common ++ " -D" ++ String.intercalate " -D" props,
                   none, eo⟩,
                stepVerdict srv ⟨should, common, some props, eo⟩]) := by
  have hc : (should && eo.isSome) = false := by
    rcases hb : (should && eo.isSome)
    · rfl
    · rw [Bool.and_eq_true] at hb
      exact absurd hb h
  constructor
  · constructor
    · unfold gameopt_tests_cmdline_propsfile
      rw [arg_test_completes srv st ⟨should, "-o " ++ opt, none, eo⟩
            (by simpa using hc)]
      exact twoStepAll_completes _ _ _ _ _
        (arg_test_completes srv _
          ⟨should, "", some ["jsettlers.gameopt." ++ opt], eo⟩
          (by simpa using hc))
    · rw [stepState_results, stepState_results]
      simp
  · constructor
    · unfold props_tests_cmdline_propsfile
      rw [if_neg (by simp [hp]),
          arg_test_completes srv st
            ⟨should, common ++ " -D" ++ String.intercalate " -D" props,
             none, eo⟩ (by simpa using hc)]
      exact twoStepAll_completes _ _ _ _ _
        (arg_test_completes srv _ ⟨should, common, some props, eo⟩
          (by simpa using hc))
    · rw [stepState_results, stepState_results]
      simp

/-- C10 (witness): concrete runs where both sub-tests fail: both verdicts
are recorded in the history and the returned boolean is false. -/
theorem C10_witness :
    ((gameopt_tests_cmdline_propsfile srvExitsZero st0 false "vp=z15"
        (some (.sub "Unknown or malformed game option: VP"))).map
      (fun p => p.2.results) = some [false, false])
    ∧ ((props_tests_cmdline_propsfile srvExitsZero st0 false "--test-config"
        ["jsettlers.connections=9"]
        (some (.sub "Unknown or malformed game option: VP"))).map
      (fun p => p.1) = some false) := by
  have h := C10_both_subtests srvExitsZero st0 false "vp=z15" "--test-config"
      ["jsettlers.connections=9"]
      (some (.sub "Unknown or malformed game option: VP"))
      (by simp) (by simp)
  constructor
  · rw [h.1.1]
    simp only [Option.map]
    rw [h.1.2]
    decide
  · rw [h.2.1]
    simp only [Option.map]
    decide
